import Mathlib

/-!
Verification of the `1api-rust` customer backend (`src/main.rs`).

Shallow embedding of the single-file Actix/Postgres backend: a `clientes`
table, three HTTP handlers (`register`, `login`, `list_clientes`) sharing an
optional store connection, and the startup wiring in `main`.

Modelling conventions:
* The Postgres table is a `List Row` inside a `Store`; `SERIAL` id assignment
  is the store's `nextId` counter and `created_at DEFAULT CURRENT_TIMESTAMP`
  is the store's clock `now`.
* Each SQL round-trip a handler awaits is recorded in an emitted trace of
  `StoreOp`s, in the order the source awaits them; fallibility of the store is
  an injected `fail : StoreOp → Option String` oracle (`some e` = that
  statement fails with raw error text `e`, as `tokio_postgres` errors do).
* JSON response bodies are `JValue`s, mirroring the `serde_json::json!` /
  `ApiResponse` shapes of the source verbatim (Portuguese messages included).
* Handlers are total functions returning
  `HttpResponse × Option Store × List StoreOp`: the response, the connection
  slot with the (possibly updated) store, and the trace of store operations
  actually issued.
-/

namespace OneApi

/-- A row of the `clientes` table (columns of `create_clientes_table`,
`main.rs:34-42`): `id SERIAL`, `nome`, `cpf`, `endereco`, `email`,
`password`, `created_at`. Timestamps are kept as opaque strings. -/
structure Row where
  id : Int
  nome : String
  cpf : String
  endereco : String
  email : String
  password : String
  created_at : String
deriving Repr, DecidableEq

/-- The relational store: the `clientes` table plus the state the store
itself owns — the next `SERIAL` id and the insertion-time clock. -/
structure Store where
  table : List Row
  nextId : Int
  now : String
deriving Repr, DecidableEq

/-- Request body of `POST /register` (`struct Cliente`, `main.rs:10-17`). -/
structure Cliente where
  nome : String
  cpf : String
  endereco : String
  email : String
  password : String
deriving Repr, DecidableEq

/-- Request body of `POST /login` (`struct LoginRequest`, `main.rs:19-23`). -/
structure LoginRequest where
  email : String
  password : String
deriving Repr, DecidableEq

/-- JSON values, for response bodies. -/
inductive JValue where
  | num (n : Int)
  | str (s : String)
  | jbool (b : Bool)
  | obj (fields : List (String × JValue))
  | arr (items : List JValue)

/-- An HTTP response: status code and JSON body. -/
structure HttpResponse where
  status : Nat
  body : JValue

/-- Serialization of `struct ApiResponse` (`main.rs:25-29`). -/
def apiJson (success : Bool) (message : String) : JValue :=
  .obj [("success", .jbool success), ("message", .str message)]

/-- The fixed 503 response each handler returns when the connection slot is
empty (`main.rs:127-132`, `179-184`, `227-232`; same body on all three). -/
def unavailableResp : HttpResponse :=
  ⟨503, apiJson false "Banco de dados não disponível"⟩

/-- The SQL statements a handler can await against the store, with their
parameters. -/
inductive StoreOp where
  | emailExists (email : String)
  | cpfExists (cpf : String)
  | insertCliente (nome cpf endereco email password : String)
  | loginQuery (email password : String)
  | listQuery
deriving Repr, DecidableEq

/-- Semantics of `SELECT EXISTS(SELECT 1 FROM clientes WHERE email = $1)`
(`main.rs:58-61`). -/
def emailExistsQ (t : List Row) (e : String) : Bool :=
  t.any fun r => r.email == e

/-- Semantics of `SELECT EXISTS(SELECT 1 FROM clientes WHERE cpf = $1)`
(`main.rs:64-67`). -/
def cpfExistsQ (t : List Row) (c : String) : Bool :=
  t.any fun r => r.cpf == c

/-- One awaited store round-trip: the injected failure oracle may make it
fail with raw error text, otherwise it yields the table-determined value. -/
def runQuery (fail : StoreOp → Option String) (op : StoreOp) (v : α) :
    Except String α :=
  match fail op with
  | some e => .error e
  | none => .ok v

/-- The row `INSERT INTO clientes (nome, cpf, endereco, email, password)
VALUES ($1,…,$5)` (`main.rs:91-94`) appends: the store fills `id` from its
`SERIAL` counter and `created_at` from its clock. -/
def insertedRow (s : Store) (c : Cliente) : Row :=
  ⟨s.nextId, c.nome, c.cpf, c.endereco, c.email, c.password, s.now⟩

/-- Handler of `POST /register` (`main.rs:50-133`). Mirrors the source
control flow: with a live connection it awaits BOTH existence queries
(`main.rs:58-67`) before matching on either result, then matches the email
result first, then the cpf result, and only inserts when both found no
duplicate. Returns the response, the updated slot and the trace of awaited
statements. -/
def register (cliente : Cliente) (slot : Option Store)
    (fail : StoreOp → Option String) :
    HttpResponse × Option Store × List StoreOp :=
  match slot with
  | some s =>
    let op1 := StoreOp.emailExists cliente.email
    let op2 := StoreOp.cpfExists cliente.cpf
    let email_exists := runQuery fail op1 (emailExistsQ s.table cliente.email)
    let cpf_exists := runQuery fail op2 (cpfExistsQ s.table cliente.cpf)
    match email_exists with
    | .ok true =>
        (⟨409, apiJson false "Email já cadastrado"⟩, some s, [op1, op2])
    | .ok false =>
      match cpf_exists with
      | .ok true =>
          (⟨409, apiJson false "CPF já cadastrado"⟩, some s, [op1, op2])
      | .ok false =>
        let op3 := StoreOp.insertCliente cliente.nome cliente.cpf
          cliente.endereco cliente.email cliente.password
        match fail op3 with
        | none =>
            (⟨200, apiJson true "Cliente registrado com sucesso"⟩,
             some { s with
                      table := s.table ++ [insertedRow s cliente],
                      nextId := s.nextId + 1 },
             [op1, op2, op3])
        | some _ =>
            (⟨500, apiJson false "Erro ao registrar cliente"⟩, some s,
             [op1, op2, op3])
      | .error _ =>
          (⟨500, apiJson false "Erro ao verificar CPF"⟩, some s, [op1, op2])
    | .error _ =>
        (⟨500, apiJson false "Erro ao verificar email"⟩, some s, [op1, op2])
  | none => (unavailableResp, none, [])

/-- Body of the 200 response of `POST /login` (`main.rs:155-162`). -/
def loginOkJson (id : Int) (nome : String) : JValue :=
  .obj [("success", .jbool true),
        ("message", .str "Login bem-sucedido"),
        ("cliente", .obj [("id", .num id), ("nome", .str nome)])]

/-- Handler of `POST /login` (`main.rs:135-185`). `query_opt` on
`SELECT id, nome FROM clientes WHERE email = $1 AND password = $2`
(`main.rs:143-146`) is exact string equality on both columns, embedded as
`List.find?`. -/
def login (login_req : LoginRequest) (slot : Option Store)
    (fail : StoreOp → Option String) :
    HttpResponse × Option Store × List StoreOp :=
  match slot with
  | some s =>
    let op := StoreOp.loginQuery login_req.email login_req.password
    match fail op with
    | some _ =>
        (⟨500, apiJson false "Erro ao verificar credenciais"⟩, some s, [op])
    | none =>
      match s.table.find? (fun r =>
          r.email == login_req.email && r.password == login_req.password) with
      | some r => (⟨200, loginOkJson r.id r.nome⟩, some s, [op])
      | none =>
          (⟨401, apiJson false "Email ou senha incorretos"⟩, some s, [op])
  | none => (unavailableResp, none, [])

/-- The JSON object built for one row of `GET /clientes`
(`main.rs:206-213`): exactly the six selected columns; `password` is not
selected and not serialized. -/
def rowJson (r : Row) : JValue :=
  .obj [("id", .num r.id), ("nome", .str r.nome), ("cpf", .str r.cpf),
        ("endereco", .str r.endereco), ("email", .str r.email),
        ("created_at", .str r.created_at)]

/-- The comparison `ORDER BY id` sorts by: ascending id. -/
def rowLe (a b : Row) : Bool :=
  decide (a.id ≤ b.id)

/-- Semantics of `ORDER BY id` in the list query (`main.rs:193`): a stable
sort of the table by ascending id. -/
def orderById (t : List Row) : List Row :=
  t.mergeSort rowLe

/-- Handler of `GET /clientes` (`main.rs:187-233`): one query
`SELECT id, nome, cpf, endereco, email, created_at FROM clientes ORDER BY id`,
each row mapped to `rowJson`. -/
def list_clientes (slot : Option Store) (fail : StoreOp → Option String) :
    HttpResponse × Option Store × List StoreOp :=
  match slot with
  | some s =>
    match fail .listQuery with
    | some _ =>
        (⟨500, apiJson false "Erro ao listar clientes"⟩, some s, [.listQuery])
    | none =>
        (⟨200, .arr ((orderById s.table).map rowJson)⟩, some s, [.listQuery])
  | none => (unavailableResp, none, [])

/-- A request to one of the three routes (`main.rs:290-292`). -/
inductive Request where
  | registerReq (c : Cliente)
  | loginReq (r : LoginRequest)
  | listReq
deriving Repr

/-- Dispatch a request to its handler, as the route table does. -/
def handle (req : Request) (slot : Option Store)
    (fail : StoreOp → Option String) :
    HttpResponse × Option Store × List StoreOp :=
  match req with
  | .registerReq c => register c slot fail
  | .loginReq r => login r slot fail
  | .listReq => list_clientes slot fail

/-- The table held in the connection slot (empty when disconnected). -/
def tableOf : Option Store → List Row
  | none => []
  | some s => s.table

/-- Run a sequence of requests, threading the slot; each request carries its
own failure oracle for the store statements it awaits. -/
def runAll : List (Request × (StoreOp → Option String)) → Option Store →
    Option Store
  | [], slot => slot
  | (req, fail) :: rest, slot => runAll rest (handle req slot fail).2.1

/-- Outcome of process startup: the shared connection slot handed to the
routes, and whether control reached `HttpServer::run`. -/
structure ServerBoot where
  slot : Option Store
  serverStarted : Bool

/-- Startup wiring of `main` (`main.rs:236-297`): read `DATABASE_URL`,
attempt to connect, run `create_clientes_table` whose error is only logged
(`main.rs:256-259`), and in every branch fall through to starting the HTTP
server with whatever the slot holds. There is no exit path: connect failure
and missing URL both leave the slot empty and continue (`main.rs:263-272`). -/
def mainBoot (databaseUrl : Option String)
    (connect : String → Except String Store)
    (create_clientes_table : Store → Except String Unit) : ServerBoot :=
  match databaseUrl with
  | some url =>
    match connect url with
    | .ok client =>
      match create_clientes_table client with
      | .ok _ => { slot := some client, serverStarted := true }
      | .error _ => { slot := some client, serverStarted := true }
    | .error _ => { slot := none, serverStarted := true }
  | none => { slot := none, serverStarted := true }

/-! Concrete sample data, following the scenario of the specification:
customer Ana, already registered with id 1. -/

/-- Ana's stored row. -/
def anaRow : Row :=
  ⟨1, "Ana", "111.111.111-11", "Rua A", "ana@x.com", "p1", "2024-01-01 09:00:00"⟩

/-- A store holding exactly Ana's row. -/
def s1 : Store := ⟨[anaRow], 2, "2024-01-02 09:00:00"⟩

/-- A store with an empty `clientes` table. -/
def emptyStore : Store := ⟨[], 1, "2024-01-01 09:00:00"⟩

/-- Failure oracle under which every store statement succeeds. -/
def noFail : StoreOp → Option String := fun _ => none

/-- Failure oracle under which exactly the statement `op` fails, with the
raw driver error text `connection reset`. -/
def failOn (op : StoreOp) : StoreOp → Option String :=
  fun o => if o = op then some "connection reset" else none

/-- Ana's registration payload. -/
def anaCliente : Cliente := ⟨"Ana", "111.111.111-11", "Rua A", "ana@x.com", "p1"⟩

/-- A payload reusing Ana's email with a fresh taxId. -/
def biaCliente : Cliente := ⟨"Bia", "222.222.222-22", "Rua B", "ana@x.com", "p2"⟩

/-- A payload reusing Ana's taxId with a fresh email. -/
def caiCliente : Cliente := ⟨"Cai", "111.111.111-11", "Rua C", "cai@x.com", "p3"⟩

end OneApi

namespace OneApi

/-! ## C5 — absent connection: uniform 503, no store operation -/

/-- C5: while the connection slot is empty, all three handlers return the
same fixed HTTP 503 response (`success:false`, message
`Banco de dados não disponível`), leave the slot untouched, and their trace
of store operations is empty — the store is never invoked. The handlers are
total Lean functions, so no panic/throw path exists in any branch. -/
theorem c5_disconnected_uniform_503 :
    ∀ (c : Cliente) (lr : LoginRequest) (fail : StoreOp → Option String),
      register c none fail = (unavailableResp, none, []) ∧
      login lr none fail = (unavailableResp, none, []) ∧
      list_clientes none fail = (unavailableResp, none, []) ∧
      unavailableResp.status = 503 ∧
      unavailableResp.body = apiJson false "Banco de dados não disponível" :=
  fun _ _ _ => ⟨rfl, rfl, rfl, rfl, rfl⟩

/-! ## C2 — duplicate email wins over duplicate taxId -/

/-- C2: with a live connection, if the email existence check succeeds and
some stored row already has the requested email, `register` answers
409 `Email já cadastrado` and leaves the store unchanged — with no
hypothesis at all on the taxId: the cpf result (duplicate, fresh, or even a
failed cpf query) is never examined in this branch, so `DuplicateEmail`
wins every tie. -/
theorem c2_duplicate_email_wins (s : Store) (c : Cliente)
    (fail : StoreOp → Option String)
    (hq : fail (.emailExists c.email) = none)
    (hdup : ∃ r ∈ s.table, r.email = c.email) :
    register c (some s) fail =
      (⟨409, apiJson false "Email já cadastrado"⟩, some s,
       [.emailExists c.email, .cpfExists c.cpf]) := by
  have hex : emailExistsQ s.table c.email = true := by
    obtain ⟨r, hr, he⟩ := hdup
    simp only [emailExistsQ, List.any_eq_true]
    exact ⟨r, hr, by simp [he]⟩
  simp [register, runQuery, hq, hex]

/-! ## C3 — register's check order (corrected: both queries are awaited) -/

/-- C3 counterexample: the source awaits BOTH existence queries
(`main.rs:58-67`) before matching on either result, so the claim "only when
the email check found no duplicate does it query whether a customer with
the given taxId exists" is false. Concretely: registering Bia, whose email
is already Ana's, finds the email duplicated — and yet the cpf existence
query is among the store operations performed by the handler. -/
theorem c3_counterexample :
    emailExistsQ s1.table biaCliente.email = true ∧
    StoreOp.cpfExists biaCliente.cpf ∈
      (register biaCliente (some s1) noFail).2.2 := by
  decide

/-- C3 (amended): with a live connection, `register` always awaits both
existence queries, email first then taxId, before examining any result
(first conjunct: the trace starts with those two operations under every
failure oracle). The results are then examined email-first: a duplicated
email yields 409 `Email já cadastrado`; with an unused email, a duplicated
taxId yields 409 `CPF já cadastrado`; only when both checks found no
duplicate is the insert statement issued, and on its success the handler
answers 200 with the row appended. -/
theorem c3_register_check_order (s : Store) (c : Cliente)
    (fail : StoreOp → Option String)
    (he : fail (.emailExists c.email) = none)
    (hc : fail (.cpfExists c.cpf) = none) :
    (∀ g : StoreOp → Option String,
       (register c (some s) g).2.2.take 2 =
         [.emailExists c.email, .cpfExists c.cpf]) ∧
    (emailExistsQ s.table c.email = true →
       register c (some s) fail =
         (⟨409, apiJson false "Email já cadastrado"⟩, some s,
          [.emailExists c.email, .cpfExists c.cpf])) ∧
    (emailExistsQ s.table c.email = false →
     cpfExistsQ s.table c.cpf = true →
       register c (some s) fail =
         (⟨409, apiJson false "CPF já cadastrado"⟩, some s,
          [.emailExists c.email, .cpfExists c.cpf])) ∧
    (emailExistsQ s.table c.email = false →
     cpfExistsQ s.table c.cpf = false →
     fail (.insertCliente c.nome c.cpf c.endereco c.email c.password) =
       none →
       register c (some s) fail =
         (⟨200, apiJson true "Cliente registrado com sucesso"⟩,
          some { s with
                   table := s.table ++ [insertedRow s c],
                   nextId := s.nextId + 1 },
          [.emailExists c.email, .cpfExists c.cpf,
           .insertCliente c.nome c.cpf c.endereco c.email c.password])) := by
  refine ⟨?_, ?_, ?_, ?_⟩
  · intro g
    cases h1 : g (StoreOp.emailExists c.email) <;>
      cases h2 : g (StoreOp.cpfExists c.cpf) <;>
      cases h3 : g (StoreOp.insertCliente c.nome c.cpf c.endereco c.email
        c.password) <;>
      cases hb1 : emailExistsQ s.table c.email <;>
      cases hb2 : cpfExistsQ s.table c.cpf <;>
      simp [register, runQuery, h1, h2, h3, hb1, hb2]
  · intro hdup
    simp [register, runQuery, he, hdup]
  · intro hfresh hdup
    simp [register, runQuery, he, hc, hfresh, hdup]
  · intro hfe hfc hins
    simp [register, runQuery, he, hc, hfe, hfc, hins]

/-- C3 witness: registering Cai (fresh email, Ana's taxId) in the store
holding only Ana answers 409 `CPF já cadastrado`, via the amended
theorem's third conjunct; its hypotheses hold by evaluation. -/
theorem c3_witness :
    register caiCliente (some s1) noFail =
      (⟨409, apiJson false "CPF já cadastrado"⟩, some s1,
       [.emailExists caiCliente.email, .cpfExists caiCliente.cpf]) :=
  (c3_register_check_order s1 caiCliente noFail rfl rfl).2.2.1
    (by decide) (by decide)

/-- C2 witness: in the store holding only Ana, registering Bia (Ana's
email, a fresh taxId) is rejected as duplicate email. -/
theorem c2_witness :
    register biaCliente (some s1) noFail =
      (⟨409, apiJson false "Email já cadastrado"⟩, some s1,
       [.emailExists biaCliente.email, .cpfExists biaCliente.cpf]) :=
  c2_duplicate_email_wins s1 biaCliente noFail rfl
    ⟨anaRow, by decide, by decide⟩

/-! ## C6 — store failures surface as fixed 500 bodies, never raw text
(corrected: one reachable failure is masked by the duplicate-email 409) -/

/-- C6 counterexample: not every store query failure yields HTTP 500.
Because `register` awaits both existence queries up front
(`main.rs:58-67`), a cpf-query failure on a request whose email is already
taken is silently discarded: the duplicated email is matched first
(`main.rs:73-76`) and the handler answers 409 `Email já cadastrado`; the
`eprintln` for the cpf error (`main.rs:111`) is never reached. Concretely:
registering Bia (Ana's email) while the cpf existence query fails with raw
text `connection reset` — the failing statement is really issued (it is in
the trace) and the response status is 409, not 500. -/
theorem c6_counterexample :
    failOn (.cpfExists biaCliente.cpf) (StoreOp.cpfExists biaCliente.cpf) =
      some "connection reset" ∧
    StoreOp.cpfExists biaCliente.cpf ∈
      (register biaCliente (some s1)
        (failOn (.cpfExists biaCliente.cpf))).2.2 ∧
    (register biaCliente (some s1)
      (failOn (.cpfExists biaCliente.cpf))).1.status = 409 := by
  decide

/-- C6 (amended): at each of the five statements a handler awaits, a store
failure carrying arbitrary raw error text `e` produces an HTTP 500 whose
body is a fixed constant (`success:false` plus a fixed Portuguese message)
and leaves the slot unchanged — at every site whose result the handler
examines. The one exception, forced by the eagerly awaited existence
queries: a cpf-query failure on a register whose email is already
duplicated is discarded, and the handler answers the fixed 409
`Email já cadastrado` instead (last conjunct). In every case the right-hand
side is a closed constant in which `e` does not occur, so the raw store
error text never appears in any response body; and since the handlers are
total functions into `HttpResponse`, no raw store error is ever propagated
past them. -/
theorem c6_store_error_fixed_500 (s : Store) (c : Cliente)
    (lr : LoginRequest) (fail : StoreOp → Option String) (e : String) :
    (fail (.emailExists c.email) = some e →
       register c (some s) fail =
         (⟨500, apiJson false "Erro ao verificar email"⟩, some s,
          [.emailExists c.email, .cpfExists c.cpf])) ∧
    (fail (.emailExists c.email) = none →
     emailExistsQ s.table c.email = false →
     fail (.cpfExists c.cpf) = some e →
       register c (some s) fail =
         (⟨500, apiJson false "Erro ao verificar CPF"⟩, some s,
          [.emailExists c.email, .cpfExists c.cpf])) ∧
    (fail (.emailExists c.email) = none →
     emailExistsQ s.table c.email = false →
     fail (.cpfExists c.cpf) = none →
     cpfExistsQ s.table c.cpf = false →
     fail (.insertCliente c.nome c.cpf c.endereco c.email c.password) =
       some e →
       register c (some s) fail =
         (⟨500, apiJson false "Erro ao registrar cliente"⟩, some s,
          [.emailExists c.email, .cpfExists c.cpf,
           .insertCliente c.nome c.cpf c.endereco c.email c.password])) ∧
    (fail (.loginQuery lr.email lr.password) = some e →
       login lr (some s) fail =
         (⟨500, apiJson false "Erro ao verificar credenciais"⟩, some s,
          [.loginQuery lr.email lr.password])) ∧
    (fail .listQuery = some e →
       list_clientes (some s) fail =
         (⟨500, apiJson false "Erro ao listar clientes"⟩, some s,
          [.listQuery])) ∧
    (fail (.emailExists c.email) = none →
     emailExistsQ s.table c.email = true →
     fail (.cpfExists c.cpf) = some e →
       register c (some s) fail =
         (⟨409, apiJson false "Email já cadastrado"⟩, some s,
          [.emailExists c.email, .cpfExists c.cpf])) := by
  refine ⟨?_, ?_, ?_, ?_, ?_, ?_⟩
  · intro h1
    simp [register, runQuery, h1]
  · intro h1 hb1 h2
    simp [register, runQuery, h1, hb1, h2]
  · intro h1 hb1 h2 hb2 h3
    simp [register, runQuery, h1, hb1, h2, hb2, h3]
  · intro h
    simp [login, h]
  · intro h
    simp [list_clientes, h]
  · intro h1 hb1 h2
    simp [register, runQuery, h1, hb1]

/-- C6 witness: each of the five failure sites, exercised on the empty
store with an oracle that fails exactly that statement with raw text
`connection reset`; every response is the fixed 500 constant. The last
conjunct exercises the amended exception: the cpf query failing under a
duplicated email answers the fixed 409 instead. -/
theorem c6_witness :
    register anaCliente (some emptyStore)
        (failOn (.emailExists anaCliente.email)) =
      (⟨500, apiJson false "Erro ao verificar email"⟩, some emptyStore,
       [.emailExists anaCliente.email, .cpfExists anaCliente.cpf]) ∧
    register anaCliente (some emptyStore)
        (failOn (.cpfExists anaCliente.cpf)) =
      (⟨500, apiJson false "Erro ao verificar CPF"⟩, some emptyStore,
       [.emailExists anaCliente.email, .cpfExists anaCliente.cpf]) ∧
    register anaCliente (some emptyStore)
        (failOn (.insertCliente anaCliente.nome anaCliente.cpf
          anaCliente.endereco anaCliente.email anaCliente.password)) =
      (⟨500, apiJson false "Erro ao registrar cliente"⟩, some emptyStore,
       [.emailExists anaCliente.email, .cpfExists anaCliente.cpf,
        .insertCliente anaCliente.nome anaCliente.cpf anaCliente.endereco
          anaCliente.email anaCliente.password]) ∧
    login ⟨"ana@x.com", "p1"⟩ (some emptyStore)
        (failOn (.loginQuery "ana@x.com" "p1")) =
      (⟨500, apiJson false "Erro ao verificar credenciais"⟩,
       some emptyStore, [.loginQuery "ana@x.com" "p1"]) ∧
    list_clientes (some emptyStore) (failOn .listQuery) =
      (⟨500, apiJson false "Erro ao listar clientes"⟩, some emptyStore,
       [.listQuery]) ∧
    register biaCliente (some s1) (failOn (.cpfExists biaCliente.cpf)) =
      (⟨409, apiJson false "Email já cadastrado"⟩, some s1,
       [.emailExists biaCliente.email, .cpfExists biaCliente.cpf]) :=
  ⟨(c6_store_error_fixed_500 emptyStore anaCliente ⟨"ana@x.com", "p1"⟩
      (failOn (.emailExists anaCliente.email)) "connection reset").1
      (by decide),
   (c6_store_error_fixed_500 emptyStore anaCliente ⟨"ana@x.com", "p1"⟩
      (failOn (.cpfExists anaCliente.cpf)) "connection reset").2.1
      (by decide) (by decide) (by decide),
   (c6_store_error_fixed_500 emptyStore anaCliente ⟨"ana@x.com", "p1"⟩
      (failOn (.insertCliente anaCliente.nome anaCliente.cpf
        anaCliente.endereco anaCliente.email anaCliente.password))
      "connection reset").2.2.1
      (by decide) (by decide) (by decide) (by decide) (by decide),
   (c6_store_error_fixed_500 emptyStore anaCliente ⟨"ana@x.com", "p1"⟩
      (failOn (.loginQuery "ana@x.com" "p1")) "connection reset").2.2.2.1
      (by decide),
   (c6_store_error_fixed_500 emptyStore anaCliente ⟨"ana@x.com", "p1"⟩
      (failOn .listQuery) "connection reset").2.2.2.2.1
      (by decide),
   (c6_store_error_fixed_500 s1 biaCliente ⟨"ana@x.com", "p1"⟩
      (failOn (.cpfExists biaCliente.cpf)) "connection reset").2.2.2.2.2
      (by decide) (by decide) (by decide)⟩

/-! ## C9 — startup connection failure is non-fatal -/

/-- C9: when connecting to the store fails at startup, `main` logs and
continues: the shared slot is left empty and control still reaches
`HttpServer::run`, so the server starts (and, with the empty slot, answers
requests in the degraded 503 mode rather than the process terminating). -/
theorem c9_connect_failure_nonfatal (url e : String)
    (connect : String → Except String Store)
    (create_clientes_table : Store → Except String Unit)
    (hfail : connect url = .error e) :
    mainBoot (some url) connect create_clientes_table =
      { slot := none, serverStarted := true } := by
  simp [mainBoot, hfail]

/-- C9 witness: a concrete refused connection still boots the server with
an empty slot. -/
theorem c9_witness :
    mainBoot (some "postgres://localhost/db")
        (fun _ => .error "connection refused") (fun _ => .ok ()) =
      { slot := none, serverStarted := true } :=
  c9_connect_failure_nonfatal "postgres://localhost/db"
    "connection refused" (fun _ => .error "connection refused")
    (fun _ => .ok ()) rfl

/-! ## C10 — table-creation failure keeps the connection available -/

/-- C10: if the connection succeeds but `create_clientes_table` fails, the
error is only logged: the client is still placed in the shared slot and the
server starts. Consequently every subsequent request on any endpoint, under
any failure oracle, awaits at least one store statement (non-empty trace)
and never answers 503. -/
theorem c10_table_creation_failure_keeps_client (url e : String)
    (connect : String → Except String Store)
    (create_clientes_table : Store → Except String Unit) (client : Store)
    (hok : connect url = .ok client)
    (htbl : create_clientes_table client = .error e) :
    mainBoot (some url) connect create_clientes_table =
      { slot := some client, serverStarted := true } ∧
    ∀ (req : Request) (fail : StoreOp → Option String),
      (handle req (some client) fail).2.2 ≠ [] ∧
      (handle req (some client) fail).1.status ≠ 503 := by
  refine ⟨by simp [mainBoot, hok, htbl], ?_⟩
  intro req fail
  cases req with
  | registerReq c =>
    cases h1 : fail (StoreOp.emailExists c.email) <;>
      cases h2 : fail (StoreOp.cpfExists c.cpf) <;>
      cases h3 : fail (StoreOp.insertCliente c.nome c.cpf c.endereco
        c.email c.password) <;>
      cases hb1 : emailExistsQ client.table c.email <;>
      cases hb2 : cpfExistsQ client.table c.cpf <;>
      simp [handle, register, runQuery, h1, h2, h3, hb1, hb2]
  | loginReq lr =>
    cases h : fail (StoreOp.loginQuery lr.email lr.password)
    · cases hf : client.table.find? fun r =>
        r.email == lr.email && r.password == lr.password <;>
        simp [handle, login, h, hf]
    · simp [handle, login, h]
  | listReq =>
    cases h : fail StoreOp.listQuery <;>
      simp [handle, list_clientes, h]

/-- C10 witness: concrete boot whose table creation fails; the slot holds
the client, and a concrete follow-up request hits the store. -/
theorem c10_witness :
    mainBoot (some "postgres://localhost/db") (fun _ => .ok emptyStore)
        (fun _ => .error "permission denied for schema public") =
      { slot := some emptyStore, serverStarted := true } ∧
    (handle .listReq (some emptyStore) noFail).2.2 ≠ [] ∧
    (handle .listReq (some emptyStore) noFail).1.status ≠ 503 :=
  ⟨(c10_table_creation_failure_keeps_client "postgres://localhost/db"
      "permission denied for schema public" (fun _ => .ok emptyStore)
      (fun _ => .error "permission denied for schema public") emptyStore
      rfl rfl).1,
   (c10_table_creation_failure_keeps_client "postgres://localhost/db"
      "permission denied for schema public" (fun _ => .ok emptyStore)
      (fun _ => .error "permission denied for schema public") emptyStore
      rfl rfl).2 .listReq noFail⟩

/-! ## C8 — create-only lifecycle: rows are only ever appended -/

/-- C8: every single request either leaves the stored table unchanged or
appends exactly one new row at the end (only a successful register does the
latter); consequently, across any sequence of register/login/list requests,
the final table is the initial table plus an appended suffix — no existing
row is ever updated, reordered or deleted through this interface. -/
theorem c8_create_only_lifecycle :
    (∀ (req : Request) (slot : Option Store)
       (fail : StoreOp → Option String),
       tableOf (handle req slot fail).2.1 = tableOf slot ∨
       ∃ r, tableOf (handle req slot fail).2.1 = tableOf slot ++ [r]) ∧
    (∀ (ops : List (Request × (StoreOp → Option String)))
       (slot : Option Store),
       ∃ t, tableOf (runAll ops slot) = tableOf slot ++ t) := by
  have hstep : ∀ (req : Request) (slot : Option Store)
      (fail : StoreOp → Option String),
      tableOf (handle req slot fail).2.1 = tableOf slot ∨
      ∃ r, tableOf (handle req slot fail).2.1 = tableOf slot ++ [r] := by
    intro req slot fail
    cases slot with
    | none =>
      cases req <;>
        simp [handle, register, login, list_clientes, tableOf]
    | some s =>
      cases req with
      | registerReq c =>
        cases h1 : fail (StoreOp.emailExists c.email) <;>
          cases h2 : fail (StoreOp.cpfExists c.cpf) <;>
          cases h3 : fail (StoreOp.insertCliente c.nome c.cpf c.endereco
            c.email c.password) <;>
          cases hb1 : emailExistsQ s.table c.email <;>
          cases hb2 : cpfExistsQ s.table c.cpf <;>
          simp [handle, register, runQuery, tableOf, h1, h2, h3, hb1, hb2]
      | loginReq lr =>
        cases h : fail (StoreOp.loginQuery lr.email lr.password)
        · cases hf : s.table.find? fun r =>
            r.email == lr.email && r.password == lr.password <;>
            simp [handle, login, tableOf, h, hf]
        · simp [handle, login, tableOf, h]
      | listReq =>
        cases h : fail StoreOp.listQuery <;>
          simp [handle, list_clientes, tableOf, h]
  refine ⟨hstep, ?_⟩
  intro ops
  induction ops with
  | nil => exact fun slot => ⟨[], by simp [runAll]⟩
  | cons p rest ih =>
    intro slot
    obtain ⟨req, fail⟩ := p
    obtain ⟨t, ht⟩ := ih (handle req slot fail).2.1
    obtain h | ⟨r, h⟩ := hstep req slot fail
    · exact ⟨t, by rw [runAll, ht, h]⟩
    · exact ⟨r :: t, by rw [runAll, ht, h]; simp⟩

/-! ## C4 — login: exact credential match, uniform 401 otherwise -/

/-- C4: with a live connection and a successful store round-trip, under the
table invariant that emails are unique (the `UNIQUE` column constraint):
if a stored row matches the request's email and password by exact,
case-sensitive string equality, `login` answers 200 with precisely that
row's id and name; if no row matches both fields, it answers the fixed 401
constant `Email ou senha incorretos` — the same closed response value
whether the email is unknown or only the password is wrong, since the
no-match branch does not depend on which field failed. -/
theorem c4_login_exact_match (s : Store) (lr : LoginRequest)
    (fail : StoreOp → Option String)
    (hok : fail (.loginQuery lr.email lr.password) = none)
    (hemails : (s.table.map Row.email).Nodup) :
    (∀ r ∈ s.table, r.email = lr.email → r.password = lr.password →
       login lr (some s) fail =
         (⟨200, loginOkJson r.id r.nome⟩, some s,
          [.loginQuery lr.email lr.password])) ∧
    ((∀ r ∈ s.table, ¬(r.email = lr.email ∧ r.password = lr.password)) →
       login lr (some s) fail =
         (⟨401, apiJson false "Email ou senha incorretos"⟩, some s,
          [.loginQuery lr.email lr.password])) := by
  constructor
  · intro r hr he hp
    have hsome : (s.table.find? fun x =>
        x.email == lr.email && x.password == lr.password).isSome := by
      rw [List.find?_isSome]
      exact ⟨r, hr, by simp [he, hp]⟩
    obtain ⟨r2, hfind⟩ := Option.isSome_iff_exists.mp hsome
    have hmem := List.mem_of_find?_eq_some hfind
    have hpred := List.find?_some hfind
    simp only [Bool.and_eq_true, beq_iff_eq] at hpred
    have : r2 = r :=
      List.inj_on_of_nodup_map hemails hmem hr (by rw [hpred.1, he])
    subst this
    simp [login, hok, hfind]
  · intro hnone
    have hfind : (s.table.find? fun x =>
        x.email == lr.email && x.password == lr.password) = none := by
      rw [List.find?_eq_none]
      intro x hx
      have := hnone x hx
      simp only [Bool.and_eq_true, beq_iff_eq]
      tauto
    simp [login, hok, hfind]

/-- C4 witness: against the store holding only Ana (`id 1`), the correct
credentials answer 200 with id 1 and name Ana; a wrong password and an
unknown email both answer the same fixed 401 constant. -/
theorem c4_witness :
    login ⟨"ana@x.com", "p1"⟩ (some s1) noFail =
      (⟨200, loginOkJson 1 "Ana"⟩, some s1,
       [.loginQuery "ana@x.com" "p1"]) ∧
    login ⟨"ana@x.com", "wrong"⟩ (some s1) noFail =
      (⟨401, apiJson false "Email ou senha incorretos"⟩, some s1,
       [.loginQuery "ana@x.com" "wrong"]) ∧
    login ⟨"nobody@x.com", "p1"⟩ (some s1) noFail =
      (⟨401, apiJson false "Email ou senha incorretos"⟩, some s1,
       [.loginQuery "nobody@x.com" "p1"]) :=
  ⟨(c4_login_exact_match s1 ⟨"ana@x.com", "p1"⟩ noFail rfl
      (by decide)).1 anaRow (by decide) (by decide) (by decide),
   (c4_login_exact_match s1 ⟨"ana@x.com", "wrong"⟩ noFail rfl
      (by decide)).2 (by decide),
   (c4_login_exact_match s1 ⟨"nobody@x.com", "p1"⟩ noFail rfl
      (by decide)).2 (by decide)⟩

/-! ## C7 — register then login round-trip -/

/-- C7: from any store state in which the payload's email and taxId are
both unused, a register whose three store statements succeed answers 200
and yields a successor state from which a login with the same email and
password answers 200 carrying the id the store assigned (`s.nextId`) and
exactly the name that was registered. -/
theorem c7_register_then_login (s : Store) (c : Cliente)
    (fail1 fail2 : StoreOp → Option String)
    (hemail : ∀ r ∈ s.table, r.email ≠ c.email)
    (hcpf : ∀ r ∈ s.table, r.cpf ≠ c.cpf)
    (h1 : fail1 (.emailExists c.email) = none)
    (h2 : fail1 (.cpfExists c.cpf) = none)
    (h3 : fail1 (.insertCliente c.nome c.cpf c.endereco c.email
      c.password) = none)
    (h4 : fail2 (.loginQuery c.email c.password) = none) :
    ∃ s2 : Store,
      register c (some s) fail1 =
        (⟨200, apiJson true "Cliente registrado com sucesso"⟩, some s2,
         [.emailExists c.email, .cpfExists c.cpf,
          .insertCliente c.nome c.cpf c.endereco c.email c.password]) ∧
      login ⟨c.email, c.password⟩ (some s2) fail2 =
        (⟨200, loginOkJson s.nextId c.nome⟩, some s2,
         [.loginQuery c.email c.password]) := by
  have hbe : emailExistsQ s.table c.email = false := by
    simp only [emailExistsQ, List.any_eq_false]
    intro r hr
    simpa using hemail r hr
  have hbc : cpfExistsQ s.table c.cpf = false := by
    simp only [cpfExistsQ, List.any_eq_false]
    intro r hr
    simpa using hcpf r hr
  refine ⟨{ s with
              table := s.table ++ [insertedRow s c],
              nextId := s.nextId + 1 }, ?_, ?_⟩
  · simp [register, runQuery, h1, h2, h3, hbe, hbc]
  · have hskip : (s.table.find? fun r =>
        r.email == c.email && r.password == c.password) = none := by
      rw [List.find?_eq_none]
      intro x hx
      simp [hemail x hx]
    have hfind : ((s.table ++ [insertedRow s c]).find? fun r =>
        r.email == c.email && r.password == c.password) =
          some (insertedRow s c) := by
      rw [List.find?_append, hskip]
      simp [insertedRow]
    simp [login, h4, hskip, insertedRow]

/-- C7 witness: registering Ana into the empty store then logging in with
her credentials answers 200 with id 1 and name Ana. -/
theorem c7_witness :
    ∃ s2 : Store,
      register anaCliente (some emptyStore) noFail =
        (⟨200, apiJson true "Cliente registrado com sucesso"⟩, some s2,
         [.emailExists "ana@x.com", .cpfExists "111.111.111-11",
          .insertCliente "Ana" "111.111.111-11" "Rua A" "ana@x.com"
            "p1"]) ∧
      login ⟨"ana@x.com", "p1"⟩ (some s2) noFail =
        (⟨200, loginOkJson 1 "Ana"⟩, some s2,
         [.loginQuery "ana@x.com" "p1"]) :=
  c7_register_then_login emptyStore anaCliente noFail noFail
    (by decide) (by decide) rfl rfl rfl rfl

/-! ## C1 — list: full projection, ascending ids, never the password -/

/-- C1: with a live connection and a successful store round-trip, under the
table invariant that ids are unique (`SERIAL PRIMARY KEY`), `GET /clientes`
answers 200 with the table sorted by id, one JSON object per stored row
(second conjunct: the sorted list is a permutation of the whole table —
every customer appears); the ids along the response are strictly
ascending; and every row object carries exactly the keys
`id, nome, cpf, endereco, email, created_at` — in particular `password` is
not among the keys of any row, for any stored data. -/
theorem c1_list_projection_and_order (s : Store)
    (fail : StoreOp → Option String)
    (hids : (s.table.map Row.id).Nodup)
    (hok : fail .listQuery = none) :
    list_clientes (some s) fail =
      (⟨200, .arr ((orderById s.table).map rowJson)⟩, some s,
       [.listQuery]) ∧
    (orderById s.table).Perm s.table ∧
    ((orderById s.table).map Row.id).Pairwise (· < ·) ∧
    (∀ fields, JValue.obj fields ∈ (orderById s.table).map rowJson →
       fields.map Prod.fst =
         ["id", "nome", "cpf", "endereco", "email", "created_at"] ∧
       "password" ∉ fields.map Prod.fst) := by
  have hperm : (orderById s.table).Perm s.table :=
    List.mergeSort_perm s.table rowLe
  refine ⟨by simp [list_clientes, hok], hperm, ?_, ?_⟩
  · have htrans : ∀ a b c : Row, rowLe a b → rowLe b c → rowLe a c := by
      intro a b c hab hbc
      simp only [rowLe, decide_eq_true_eq] at hab hbc ⊢
      omega
    have htotal : ∀ a b : Row, rowLe a b || rowLe b a := by
      intro a b
      simp only [rowLe, Bool.or_eq_true, decide_eq_true_eq]
      omega
    have hsorted := List.sorted_mergeSort htrans htotal s.table
    have hle : (orderById s.table).Pairwise fun a b => a.id ≤ b.id := by
      refine hsorted.imp ?_
      intro a b h
      simpa [rowLe] using h
    have hnd : ((orderById s.table).map Row.id).Nodup :=
      ((hperm.map Row.id).symm).nodup hids
    have hne : (orderById s.table).Pairwise fun a b => a.id ≠ b.id :=
      List.pairwise_map.mp hnd
    refine List.pairwise_map.mpr ?_
    exact (hle.and hne).imp fun h => lt_of_le_of_ne h.1 h.2
  · intro fields hmem
    obtain ⟨r, _, heq⟩ := List.mem_map.mp hmem
    simp only [rowJson, JValue.obj.injEq] at heq
    subst heq
    refine ⟨by simp, by simp⟩

/-- C1 witness: listing the store holding only Ana answers 200 with the
single projected row, whose keys carry no password. -/
theorem c1_witness :
    (s1.table.map Row.id).Nodup ∧
    list_clientes (some s1) noFail =
      (⟨200, .arr ((orderById s1.table).map rowJson)⟩, some s1,
       [.listQuery]) ∧
    (orderById s1.table).Perm s1.table :=
  ⟨by decide,
   (c1_list_projection_and_order s1 noFail (by decide) rfl).1,
   (c1_list_projection_and_order s1 noFail (by decide) rfl).2.1⟩

end OneApi
